import Mathlib

/-!
Verification of the chat-overlay session/message core.

The definitions below are a shallow embedding of the two Rust source files
of the repository: `src/src-tauri/src/lib.rs` (the crate root, embedded at
the top level of namespace `ChatOverlay`) and `src/src-tauri/src/chat_models.rs`
(embedded in namespace `ChatOverlay.chat_models`).  External library types
from the async_openai crate are modelled with exactly the fields the core
reads or writes.  Machine integers (`usize`, `u64`) are modelled as `Nat`
(the code only ever increments counters, no overflow behaviour is relied
upon).  The system clock read performed by `Message::new` is modelled by an
explicit `now : Nat` argument at each call site that reads the clock.  The
HTTP completion client is modelled as an abstract function from the request
value to either an error or a response, and a Rust panic is modelled as an
explicit `panics` outcome.
-/

namespace ChatOverlay

/-- async_openai role enumeration (the variants the code can mention). -/
inductive Role where
  | system
  | user
  | assistant
  | function
deriving DecidableEq, Repr

/-- async_openai function-call metadata; the core only ever stores `none`
of these, so the fields are irrelevant, but we keep the real shape. -/
structure FunctionCall where
  name : String
  arguments : String
deriving DecidableEq, Repr

/-- async_openai outgoing wire message: role, optional content, optional
name, optional function-call metadata. -/
structure ChatCompletionRequestMessage where
  role : Role
  content : Option String
  name : Option String
  function_call : Option FunctionCall
deriving DecidableEq, Repr

/-- async_openai incoming wire message: role, optional content, optional
function-call metadata. -/
structure ChatCompletionResponseMessage where
  role : Role
  content : Option String
  function_call : Option FunctionCall
deriving DecidableEq, Repr

/-- async_openai error value.  The core treats it as abstract data and only
propagates it, so a wrapped message string is enough. -/
structure OpenAIError where
  message : String
deriving DecidableEq, Repr

/-- One choice of a completion response; the code reads only `message`. -/
structure ChatChoice where
  message : ChatCompletionResponseMessage
deriving DecidableEq, Repr

/-- The request value built by `requeset_chat_model`: the fields the core
sets that the semantics can depend on (`temperature` is a constant float
the core never reads back, so it is omitted). -/
structure CreateChatCompletionRequest where
  model : String
  messages : List ChatCompletionRequestMessage
  max_tokens : Nat
deriving DecidableEq, Repr

/-- A completion response; the code reads only `choices`. -/
structure CreateChatCompletionResponse where
  choices : List ChatChoice
deriving DecidableEq, Repr

/-- The external completion client (`Client<OpenAIConfig>` together with
its `chat().create` call): an abstract capability mapping a request to either
an error or a response. -/
def Client : Type :=
  CreateChatCompletionRequest → Except OpenAIError CreateChatCompletionResponse

namespace chat_requests

/-- lib.rs line 20. -/
def CHAT_MODEL : String := "gpt-3.5-turbo"

/-- The observable outcome of `requeset_chat_model`: a returned response
message, a returned error, or a Rust panic (the `expect` call). -/
inductive RequestOutcome where
  | ok (message : ChatCompletionResponseMessage)
  | err (e : OpenAIError)
  | panics (message : String)
deriving DecidableEq, Repr

/-- Whether the outcome is a returned error (`Err(OpenAIError)`). -/
def RequestOutcome.isErr : RequestOutcome → Bool
  | RequestOutcome.err _ => true
  | _ => false

/-- The request `requeset_chat_model` builds: model defaulted to
`CHAT_MODEL` when absent, the given messages, max_tokens 100. -/
def build_request (messages : List ChatCompletionRequestMessage)
    (model : Option String) : CreateChatCompletionRequest :=
  { model := model.getD CHAT_MODEL, messages := messages, max_tokens := 100 }

/-- lib.rs lines 25-45: build the request, call the client, propagate its
error, and take the first choice of the response — where an empty choices
list hits `.expect("Response had an empty choice field")`, a panic. -/
def requeset_chat_model (client : Client)
    (messages : List ChatCompletionRequestMessage)
    (model : Option String) : RequestOutcome :=
  match client (build_request messages model) with
  | Except.error e => RequestOutcome.err e
  | Except.ok response =>
    match response.choices.head? with
    | some choice => RequestOutcome.ok choice.message
    | none => RequestOutcome.panics "Response had an empty choice field"

end chat_requests

/-- lib.rs lines 48-55: the trait both wire shapes implement. -/
class ChatMessageTrait (T : Type) where
  get_role : T → Role
  get_content : T → String

/-- lib.rs lines 57-68: request messages expose role and content, absent
content becoming the empty string. -/
instance : ChatMessageTrait ChatCompletionRequestMessage where
  get_role m := m.role
  get_content m :=
    match m.content with
    | some c => c
    | none => ""

/-- lib.rs lines 70-81: response messages, identically. -/
instance : ChatMessageTrait ChatCompletionResponseMessage where
  get_role m := m.role
  get_content m :=
    match m.content with
    | some c => c
    | none => ""

/-- lib.rs lines 87-93: the internal message record. -/
structure Message where
  id : Nat
  content : String
  created_at : Nat
  role : Role
deriving DecidableEq, Repr

/-- lib.rs lines 97-109: `Message::new`; the clock read is the explicit
`now` argument. -/
def Message.new (now : Nat) (id : Nat) (role : Role) (content : String) :
    Message :=
  { id := id, content := content, role := role, created_at := now }

def Message.get_id (m : Message) : Nat := m.id

def Message.get_content (m : Message) : String := m.content

def Message.get_created_at (m : Message) : Nat := m.created_at

def Message.get_role (m : Message) : Role := m.role

/-- lib.rs lines 133-140: project a record into the outgoing wire shape,
content always present, name and function_call always absent. -/
def Message.to_chat_resquest_msg (m : Message) : ChatCompletionRequestMessage :=
  { role := m.role, content := some m.content, name := none,
    function_call := none }

/-- lib.rs lines 143-149. -/
def Message.to_chat_response_msg (m : Message) : ChatCompletionResponseMessage :=
  { role := m.role, content := some m.content, function_call := none }

/-- lib.rs lines 154-167. -/
structure ChatSession where
  id : Nat
  title : String
  messages : List Message
  msg_id_counter : Nat
  model : String
deriving DecidableEq, Repr

/-- lib.rs lines 171-179. -/
def ChatSession.new (id : Nat) (title : String) (model : String) :
    ChatSession :=
  { id := id, title := title, messages := [], msg_id_counter := 0,
    model := model }

/-- lib.rs lines 227-233: take the next local id, bump the counter, append
a freshly stamped record built from the wire message. -/
def ChatSession.add_chat_message {T : Type} [ChatMessageTrait T]
    (s : ChatSession) (msg : T) (now : Nat) : ChatSession :=
  { s with
    msg_id_counter := s.msg_id_counter + 1,
    messages := s.messages ++
      [Message.new now s.msg_id_counter (ChatMessageTrait.get_role msg)
        (ChatMessageTrait.get_content msg)] }

/-- The observable outcome of `ChatSession::add_message`: the mutated
session with `Ok(())`, the session as left behind with `Err(e)`, or a
panic propagated out of `requeset_chat_model`. -/
inductive SubmitOutcome where
  | ok (s : ChatSession)
  | err (s : ChatSession) (e : OpenAIError)
  | panics (message : String)
deriving DecidableEq, Repr

/-- lib.rs lines 185-218: build the pending user wire message, build the
pending record from the current counter (without bumping it), extend a
copy of the stored messages with it, project everything to wire form,
invoke `requeset_chat_model` with the bound model; on error return it with
the session untouched, on success append the user turn and then the
response through `add_chat_message`.  `now_pending`, `now_user` and
`now_response` are the three clock reads. -/
def ChatSession.add_message (s : ChatSession) (contents : String)
    (client : Client) (now_pending now_user now_response : Nat) :
    SubmitOutcome :=
  let chat_request_msg : ChatCompletionRequestMessage :=
    { role := Role.user, content := some contents, name := none,
      function_call := none }
  let msg := Message.new now_pending s.msg_id_counter Role.user contents
  let temp_messages := s.messages ++ [msg]
  match chat_requests.requeset_chat_model client
      (temp_messages.map Message.to_chat_resquest_msg) (some s.model) with
  | chat_requests.RequestOutcome.err e => SubmitOutcome.err s e
  | chat_requests.RequestOutcome.panics m => SubmitOutcome.panics m
  | chat_requests.RequestOutcome.ok response =>
    SubmitOutcome.ok
      ((s.add_chat_message chat_request_msg now_user).add_chat_message
        response now_response)

/-- lib.rs lines 236-251: fold over the messages, keeping non-matching
entries in order in an accumulator and remembering the latest matching
entry; the accumulator replaces the message list and the remembered entry
is returned. -/
def ChatSession.delete_message (s : ChatSession) (id : Nat) :
    ChatSession × Option Message :=
  let folded := s.messages.foldl
    (fun acc curr =>
      if curr.id = id then (acc.1, some curr) else (acc.1 ++ [curr], acc.2))
    (([] : List Message), (none : Option Message))
  ({ s with messages := folded.1 }, folded.2)

/-- lib.rs lines 255-257. -/
def ChatSession.rename_session (s : ChatSession) (new_title : String) :
    ChatSession :=
  { s with title := new_title }

def ChatSession.get_title (s : ChatSession) : String := s.title

def ChatSession.get_id (s : ChatSession) : Nat := s.id

def ChatSession.get_messages (s : ChatSession) : List Message := s.messages

/-- lib.rs lines 277-287. -/
structure Store where
  sessions : List ChatSession
  session_id_counter : Nat
  client : Client

/-- lib.rs lines 292-298. -/
def Store.new (client : Client) : Store :=
  { sessions := [], session_id_counter := 0, client := client }

def Store.get_all_sessions (st : Store) : List ChatSession := st.sessions

/-- lib.rs lines 307-309. -/
def Store.get_session (st : Store) (id : Nat) : Option ChatSession :=
  st.sessions.find? (fun x => x.get_id == id)

/-- The observable outcome of `Store::add_session`. -/
inductive StoreOutcome where
  | ok (st : Store)
  | err (st : Store) (e : OpenAIError)
  | panics (message : String)

/-- lib.rs lines 317-333: take the current global id (without bumping it),
build a fresh session, run its first `add_message` with the content of the
given wire message and the shared client; on error propagate it with the
store untouched, on success bump the counter and push the session. -/
def Store.add_session (st : Store) (msg : ChatCompletionRequestMessage)
    (title : String) (model : String)
    (now_pending now_user now_response : Nat) : StoreOutcome :=
  let id := st.session_id_counter
  let chs := ChatSession.new id title model
  match chs.add_message (ChatMessageTrait.get_content msg) st.client
      now_pending now_user now_response with
  | SubmitOutcome.err _ e => StoreOutcome.err st e
  | SubmitOutcome.panics m => StoreOutcome.panics m
  | SubmitOutcome.ok chs2 =>
    StoreOutcome.ok
      { st with
        session_id_counter := st.session_id_counter + 1,
        sessions := st.sessions ++ [chs2] }

/-- lib.rs lines 337-353: the same fold-and-rebuild as message deletion,
over the sessions. -/
def Store.delete_session (st : Store) (id : Nat) :
    Store × Option ChatSession :=
  let folded := st.sessions.foldl
    (fun acc curr =>
      if curr.get_id = id then (acc.1, some curr)
      else (acc.1 ++ [curr], acc.2))
    (([] : List ChatSession), (none : Option ChatSession))
  ({ st with sessions := folded.1 }, folded.2)

namespace chat_models

/-- chat_models.rs lines 42-47: same fields as the lib.rs record. -/
structure Message where
  id : Nat
  content : String
  created_at : Nat
  role : Role
deriving DecidableEq, Repr

/-- chat_models.rs lines 52-64. -/
def Message.new (now : Nat) (id : Nat) (role : Role) (content : String) :
    Message :=
  { id := id, content := content, role := role, created_at := now }

def Message.get_id (m : Message) : Nat := m.id

/-- chat_models.rs lines 104-114: no bound model field in this module. -/
structure ChatSession where
  id : Nat
  title : String
  messages : List Message
  msg_id_counter : Nat
deriving DecidableEq, Repr

/-- chat_models.rs lines 118-125. -/
def ChatSession.new (id : Nat) (title : String) : ChatSession :=
  { id := id, title := title, messages := [], msg_id_counter := 0 }

/-- chat_models.rs lines 134-140. -/
def ChatSession.add_chat_message {T : Type} [ChatMessageTrait T]
    (s : ChatSession) (msg : T) (now : Nat) : ChatSession :=
  { s with
    msg_id_counter := s.msg_id_counter + 1,
    messages := s.messages ++
      [Message.new now s.msg_id_counter (ChatMessageTrait.get_role msg)
        (ChatMessageTrait.get_content msg)] }

/-- chat_models.rs lines 143-157: textually the same fold as the lib.rs
delete. -/
def ChatSession.delete_message (s : ChatSession) (id : Nat) :
    ChatSession × Option Message :=
  let folded := s.messages.foldl
    (fun acc curr =>
      if curr.id = id then (acc.1, some curr) else (acc.1 ++ [curr], acc.2))
    (([] : List Message), (none : Option Message))
  ({ s with messages := folded.1 }, folded.2)

def ChatSession.get_id (s : ChatSession) : Nat := s.id

/-- chat_models.rs lines 178-184: no client handle in this module; the
session-id counter is (mis)named `msg_id_counter` here. -/
structure Store where
  sessions : List ChatSession
  msg_id_counter : Nat
deriving DecidableEq, Repr

/-- chat_models.rs lines 188-193. -/
def Store.new : Store :=
  { sessions := [], msg_id_counter := 0 }

def Store.get_all_sessions (st : Store) : List ChatSession := st.sessions

/-- chat_models.rs lines 201-203. -/
def Store.get_session (st : Store) (id : Nat) : Option ChatSession :=
  st.sessions.find? (fun x => x.get_id == id)

/-- chat_models.rs lines 210-216: no network call in this module; bump the
counter at once and push a session seeded with the message. -/
def Store.add_session (st : Store) (msg : ChatCompletionRequestMessage)
    (title : String) (now : Nat) : Store :=
  let id := st.msg_id_counter
  let chs := (ChatSession.new id title).add_chat_message msg now
  { st with msg_id_counter := st.msg_id_counter + 1,
            sessions := st.sessions ++ [chs] }

/-- chat_models.rs lines 220-234: textually the same fold as the lib.rs
delete. -/
def Store.delete_session (st : Store) (id : Nat) :
    Store × Option ChatSession :=
  let folded := st.sessions.foldl
    (fun acc curr =>
      if curr.get_id = id then (acc.1, some curr)
      else (acc.1 ++ [curr], acc.2))
    (([] : List ChatSession), (none : Option ChatSession))
  ({ st with sessions := folded.1 }, folded.2)

/-- Field-for-field correspondence from the lib.rs record to the
chat_models.rs record (the two structs are identical); used only to state
the cross-module equivalence claim. -/
def Message.of_lib (m : ChatOverlay.Message) : Message :=
  { id := m.id, content := m.content, created_at := m.created_at,
    role := m.role }

/-- Correspondence from a lib.rs session to a chat_models.rs session,
forgetting the bound model field that only lib.rs has. -/
def ChatSession.of_lib (s : ChatOverlay.ChatSession) : ChatSession :=
  { id := s.id, title := s.title,
    messages := s.messages.map Message.of_lib,
    msg_id_counter := s.msg_id_counter }

/-- Correspondence from a lib.rs store to a chat_models.rs store,
forgetting the client handle that only lib.rs has. -/
def Store.of_lib (st : ChatOverlay.Store) : Store :=
  { sessions := st.sessions.map ChatSession.of_lib,
    msg_id_counter := st.session_id_counter }

end chat_models

/-! ## Verification-side definitions -/

/-- The exact request value `ChatSession.add_message` hands to the client:
every stored message plus the pending (not yet stored) user turn, all in
wire form, with the model bound to this session.  The claim7 theorem ties
this definition to `add_message` and states its shape. -/
def ChatSession.submit_request (s : ChatSession) (contents : String)
    (now_pending : Nat) : CreateChatCompletionRequest :=
  chat_requests.build_request
    ((s.messages ++
        [Message.new now_pending s.msg_id_counter Role.user contents]).map
      Message.to_chat_resquest_msg)
    (some s.model)

/-- The session states reachable from a fresh session by the operations
the code offers: direct appends of either wire shape, submissions that
returned (successfully or with an error), deletions and renames. -/
inductive Reachable : ChatSession → Prop where
  | init (id : Nat) (title model : String) :
      Reachable (ChatSession.new id title model)
  | add_request (s : ChatSession) (msg : ChatCompletionRequestMessage)
      (now : Nat) : Reachable s → Reachable (s.add_chat_message msg now)
  | add_response (s : ChatSession) (msg : ChatCompletionResponseMessage)
      (now : Nat) : Reachable s → Reachable (s.add_chat_message msg now)
  | submit_ok (s s' : ChatSession) (contents : String) (client : Client)
      (t₁ t₂ t₃ : Nat) : Reachable s →
      s.add_message contents client t₁ t₂ t₃ = SubmitOutcome.ok s' →
      Reachable s'
  | submit_err (s s' : ChatSession) (contents : String) (client : Client)
      (t₁ t₂ t₃ : Nat) (e : OpenAIError) : Reachable s →
      s.add_message contents client t₁ t₂ t₃ = SubmitOutcome.err s' e →
      Reachable s'
  | del (s : ChatSession) (i : Nat) : Reachable s →
      Reachable (s.delete_message i).1
  | rename (s : ChatSession) (new_title : String) : Reachable s →
      Reachable (s.rename_session new_title)

/-- The id bookkeeping invariant of a session: stored ids strictly
increase along the message list and all sit below the local counter. -/
def session_invariant (s : ChatSession) : Prop :=
  (s.messages.map Message.get_id).Pairwise (· < ·)
  ∧ ∀ m ∈ s.messages, m.get_id < s.msg_id_counter

/-- A stub client that always reports an error; used to exercise the
failure paths on concrete inputs. -/
def errClient : Client := fun _ => Except.error { message := "boom" }

/-- A stub client that always answers with one assistant choice. -/
def okClient : Client := fun _ =>
  Except.ok
    { choices :=
        [{ message :=
            { role := Role.assistant, content := some "hi there",
              function_call := none } }] }

/-- A stub client that reports success carrying an empty choices list. -/
def emptyChoicesClient : Client := fun _ => Except.ok { choices := [] }

/-- A concrete two-message session with distinct ids, for witnesses. -/
def sampleSession : ChatSession :=
  { id := 0, title := "t",
    messages :=
      [{ id := 0, content := "a", created_at := 0, role := Role.user },
       { id := 1, content := "b", created_at := 1, role := Role.assistant }],
    msg_id_counter := 2, model := "m" }

/-- A concrete two-session store with distinct ids, for witnesses. -/
def sampleStore : Store :=
  { sessions := [ChatSession.new 0 "one" "m", ChatSession.new 1 "two" "m"],
    session_id_counter := 2, client := errClient }

end ChatOverlay

namespace ChatOverlay

/-! ## Closed forms of the scan-and-rebuild deletion fold -/

theorem or_some_absorb {α : Type} (o : Option α) (a : α) (t : Option α) :
    (o.or (some a)).or t = o.or (some a) := by
  cases o <;> rfl

/-- The fold both delete operations run: from accumulator `acc` and
remembered match `t` it computes the kept entries in order and the
right-most entry whose key matches. -/
theorem foldl_delete_key {α : Type} (key : α → Nat) (i : Nat) :
    ∀ (l acc : List α) (t : Option α),
      l.foldl
        (fun acc curr =>
          if key curr = i then (acc.1, some curr)
          else (acc.1 ++ [curr], acc.2))
        (acc, t)
      = (acc ++ l.filter (fun c => !(key c == i)),
         (l.reverse.find? (fun c => key c == i)).or t) := by
  intro l
  induction l with
  | nil => intro acc t; simp
  | cons c l ih =>
    intro acc t
    by_cases h : key c = i
    · rw [List.foldl_cons, if_pos h, ih]
      simp [h, List.find?_append, Option.or_assoc, or_some_absorb]
    · rw [List.foldl_cons, if_neg h, ih]
      simp [h, List.find?_append, Option.or_assoc]

/-- `ChatSession.delete_message` in closed form: the surviving messages are
exactly the non-matching ones in their original order, and the returned
value is the right-most match. -/
theorem delete_message_eq (s : ChatSession) (i : Nat) :
    s.delete_message i
      = ({ s with messages := s.messages.filter (fun m => !(m.id == i)) },
         s.messages.reverse.find? (fun m => m.id == i)) := by
  unfold ChatSession.delete_message
  rw [foldl_delete_key (fun m : Message => m.id) i]
  simp

/-- `Store.delete_session` in closed form. -/
theorem delete_session_eq (st : Store) (i : Nat) :
    st.delete_session i
      = ({ st with
           sessions := st.sessions.filter (fun c => !(c.get_id == i)) },
         st.sessions.reverse.find? (fun c => c.get_id == i)) := by
  unfold Store.delete_session
  rw [foldl_delete_key ChatSession.get_id i]
  simp

/-- The chat_models.rs message deletion in closed form. -/
theorem cm_delete_message_eq (s : chat_models.ChatSession) (i : Nat) :
    s.delete_message i
      = ({ s with messages := s.messages.filter (fun m => !(m.id == i)) },
         s.messages.reverse.find? (fun m => m.id == i)) := by
  unfold chat_models.ChatSession.delete_message
  rw [foldl_delete_key (fun m : chat_models.Message => m.id) i]
  simp

/-- The chat_models.rs session deletion in closed form. -/
theorem cm_delete_session_eq (st : chat_models.Store) (i : Nat) :
    st.delete_session i
      = ({ st with
           sessions := st.sessions.filter (fun c => !(c.get_id == i)) },
         st.sessions.reverse.find? (fun c => c.get_id == i)) := by
  unfold chat_models.Store.delete_session
  rw [foldl_delete_key chat_models.ChatSession.get_id i]
  simp

end ChatOverlay

namespace ChatOverlay

/-! ## C9 and C10: the deletion fold, with and without duplicate ids -/

/-- C9: for every message sequence, including sequences where several
entries share one id, `ChatSession.delete_message` removes every entry
whose id matches (keeping all others in order) and returns the right-most
matching entry; `Store.delete_session` behaves identically over the
sessions of a store. -/
theorem claim9_delete_removes_all_matches_returns_rightmost :
    (∀ (s : ChatSession) (i : Nat),
      s.delete_message i
        = ({ s with messages := s.messages.filter (fun m => !(m.id == i)) },
           s.messages.reverse.find? (fun m => m.id == i)))
    ∧ (∀ (st : Store) (i : Nat),
      st.delete_session i
        = ({ st with
             sessions := st.sessions.filter (fun c => !(c.get_id == i)) },
           st.sessions.reverse.find? (fun c => c.get_id == i))) :=
  ⟨delete_message_eq, delete_session_eq⟩

/-- C10: the duplicated deletion code in chat_models.rs computes, along
the field-for-field correspondence, exactly the same surviving sequence
and the same returned value as the lib.rs code, both for messages inside
a session and for sessions inside a store. -/
theorem claim10_modules_delete_equivalent :
    (∀ (s : ChatSession) (i : Nat),
      (chat_models.ChatSession.of_lib s).delete_message i
        = (chat_models.ChatSession.of_lib (s.delete_message i).1,
           ((s.delete_message i).2).map chat_models.Message.of_lib))
    ∧ (∀ (st : Store) (i : Nat),
      (chat_models.Store.of_lib st).delete_session i
        = (chat_models.Store.of_lib (st.delete_session i).1,
           ((st.delete_session i).2).map chat_models.ChatSession.of_lib)) := by
  constructor
  · intro s i
    rw [cm_delete_message_eq, delete_message_eq]
    simp only [chat_models.ChatSession.of_lib, List.filter_map,
      ← List.map_reverse, List.find?_map]
    constructor
  · intro st i
    rw [cm_delete_session_eq, delete_session_eq]
    simp only [chat_models.Store.of_lib, List.filter_map,
      ← List.map_reverse, List.find?_map]
    constructor

end ChatOverlay

namespace ChatOverlay

/-! ## Deletion under the distinct-ids invariant (C6) -/

theorem filter_no_match {α : Type} (key : α → Nat) (i : Nat) (l : List α)
    (h : ∀ a ∈ l, key a ≠ i) : l.filter (fun c => !(key c == i)) = l := by
  apply List.filter_eq_self.2
  intro a ha
  simp [h a ha]

theorem find?_no_match {α : Type} (key : α → Nat) (i : Nat) (l : List α)
    (h : ∀ a ∈ l, key a ≠ i) : l.find? (fun c => key c == i) = none := by
  apply List.find?_eq_none.2
  intro a ha
  simp [h a ha]

theorem filter_unique_match {α : Type} (key : α → Nat) (i : Nat)
    (l₁ l₂ : List α) (m : α) (hm : key m = i)
    (h₁ : ∀ a ∈ l₁, key a ≠ i) (h₂ : ∀ a ∈ l₂, key a ≠ i) :
    (l₁ ++ m :: l₂).filter (fun c => !(key c == i)) = l₁ ++ l₂ := by
  rw [List.filter_append, List.filter_cons, filter_no_match key i l₁ h₁,
    filter_no_match key i l₂ h₂]
  simp [hm]

theorem rfind_unique_match {α : Type} (key : α → Nat) (i : Nat)
    (l₁ l₂ : List α) (m : α) (hm : key m = i)
    (h₁ : ∀ a ∈ l₁, key a ≠ i) (h₂ : ∀ a ∈ l₂, key a ≠ i) :
    (l₁ ++ m :: l₂).reverse.find? (fun c => key c == i) = some m := by
  have h₁' : ∀ a ∈ l₁.reverse, key a ≠ i := by
    intro a ha; exact h₁ a (List.mem_reverse.1 ha)
  have h₂' : ∀ a ∈ l₂.reverse, key a ≠ i := by
    intro a ha; exact h₂ a (List.mem_reverse.1 ha)
  rw [List.reverse_append, List.reverse_cons, List.append_assoc,
    List.find?_append, find?_no_match key i l₂.reverse h₂',
    List.find?_append, find?_no_match key i l₁.reverse h₁']
  simp [hm]

/-- Split the distinctness of ids around one occurrence: everything before
and after the occurrence carries a different id. -/
theorem pairwise_split {α : Type} (key : α → Nat) (l₁ l₂ : List α) (m : α)
    (h : ((l₁ ++ m :: l₂).map key).Pairwise (· ≠ ·)) :
    (∀ a ∈ l₁, key a ≠ key m) ∧ (∀ a ∈ l₂, key a ≠ key m) := by
  rw [List.pairwise_map, List.pairwise_append] at h
  obtain ⟨-, hcons, hcross⟩ := h
  constructor
  · intro a ha
    exact hcross a ha m (List.mem_cons_self m l₂)
  · intro a ha
    rw [List.pairwise_cons] at hcons
    exact fun hc => hcons.1 a ha hc.symm

end ChatOverlay

namespace ChatOverlay

theorem delete_message_absent (s : ChatSession) (i : Nat)
    (h : ∀ m ∈ s.messages, m.get_id ≠ i) :
    s.delete_message i = (s, none) := by
  rw [delete_message_eq]
  rw [show s.messages.filter (fun m => !(m.id == i)) = s.messages from
    filter_no_match (fun m : Message => m.id) i s.messages h]
  rw [show s.messages.reverse.find? (fun m => m.id == i) = none from
    find?_no_match (fun m : Message => m.id) i s.messages.reverse
      (fun a ha => h a (List.mem_reverse.1 ha))]

theorem delete_message_unique (s : ChatSession) (i : Nat)
    (l₁ l₂ : List Message) (m : Message)
    (hsplit : s.messages = l₁ ++ m :: l₂) (hm : m.get_id = i)
    (hs : (s.messages.map Message.get_id).Pairwise (· ≠ ·)) :
    s.delete_message i = ({ s with messages := l₁ ++ l₂ }, some m) := by
  obtain ⟨h₁, h₂⟩ :=
    pairwise_split Message.get_id l₁ l₂ m (by rw [← hsplit]; exact hs)
  have h₁' : ∀ a ∈ l₁, Message.get_id a ≠ i := fun a ha => hm ▸ h₁ a ha
  have h₂' : ∀ a ∈ l₂, Message.get_id a ≠ i := fun a ha => hm ▸ h₂ a ha
  rw [delete_message_eq, hsplit]
  rw [show (l₁ ++ m :: l₂).filter (fun x => !(x.id == i)) = l₁ ++ l₂ from
    filter_unique_match (fun x : Message => x.id) i l₁ l₂ m hm h₁' h₂']
  rw [show (l₁ ++ m :: l₂).reverse.find? (fun x => x.id == i) = some m from
    rfind_unique_match (fun x : Message => x.id) i l₁ l₂ m hm h₁' h₂']

theorem delete_session_absent (st : Store) (i : Nat)
    (h : ∀ c ∈ st.sessions, c.get_id ≠ i) :
    st.delete_session i = (st, none) := by
  rw [delete_session_eq]
  rw [show st.sessions.filter (fun c => !(c.get_id == i)) = st.sessions from
    filter_no_match ChatSession.get_id i st.sessions h]
  rw [show st.sessions.reverse.find? (fun c => c.get_id == i) = none from
    find?_no_match ChatSession.get_id i st.sessions.reverse
      (fun a ha => h a (List.mem_reverse.1 ha))]

theorem delete_session_unique (st : Store) (i : Nat)
    (g₁ g₂ : List ChatSession) (c : ChatSession)
    (hsplit : st.sessions = g₁ ++ c :: g₂) (hc : c.get_id = i)
    (hst : (st.sessions.map ChatSession.get_id).Pairwise (· ≠ ·)) :
    st.delete_session i = ({ st with sessions := g₁ ++ g₂ }, some c) := by
  obtain ⟨h₁, h₂⟩ :=
    pairwise_split ChatSession.get_id g₁ g₂ c (by rw [← hsplit]; exact hst)
  have h₁' : ∀ a ∈ g₁, ChatSession.get_id a ≠ i := fun a ha => hc ▸ h₁ a ha
  have h₂' : ∀ a ∈ g₂, ChatSession.get_id a ≠ i := fun a ha => hc ▸ h₂ a ha
  rw [delete_session_eq, hsplit]
  rw [show (g₁ ++ c :: g₂).filter (fun x => !(x.get_id == i)) = g₁ ++ g₂ from
    filter_unique_match ChatSession.get_id i g₁ g₂ c hc h₁' h₂']
  rw [show (g₁ ++ c :: g₂).reverse.find? (fun x => x.get_id == i) = some c from
    rfind_unique_match ChatSession.get_id i g₁ g₂ c hc h₁' h₂']

end ChatOverlay

namespace ChatOverlay

/-- C6: when all ids are pairwise distinct, `ChatSession.delete_message`
removes exactly the one matching entry, preserves the relative order of
the rest, and returns the removed entry; with no matching entry it
returns none and leaves the sequence unchanged, so a second call with the
same id after a successful first call returns none and changes nothing;
and `Store.delete_session` satisfies the same contract over sessions. -/
theorem claim6_delete_unique_id_contract (s : ChatSession) (st : Store)
    (i : Nat)
    (hs : (s.messages.map Message.get_id).Pairwise (· ≠ ·))
    (hst : (st.sessions.map ChatSession.get_id).Pairwise (· ≠ ·)) :
    ((∀ l₁ m l₂, s.messages = l₁ ++ m :: l₂ → m.get_id = i →
        s.delete_message i = ({ s with messages := l₁ ++ l₂ }, some m)
        ∧ ({ s with messages := l₁ ++ l₂ } : ChatSession).delete_message i
            = ({ s with messages := l₁ ++ l₂ }, none))
      ∧ ((∀ m ∈ s.messages, m.get_id ≠ i) →
          s.delete_message i = (s, none)))
    ∧ ((∀ g₁ c g₂, st.sessions = g₁ ++ c :: g₂ → c.get_id = i →
        st.delete_session i = ({ st with sessions := g₁ ++ g₂ }, some c)
        ∧ ({ st with sessions := g₁ ++ g₂ } : Store).delete_session i
            = ({ st with sessions := g₁ ++ g₂ }, none))
      ∧ ((∀ c ∈ st.sessions, c.get_id ≠ i) →
          st.delete_session i = (st, none))) := by
  refine ⟨⟨?_, fun h => delete_message_absent s i h⟩,
          ⟨?_, fun h => delete_session_absent st i h⟩⟩
  · intro l₁ m l₂ hsplit hm
    obtain ⟨h₁, h₂⟩ :=
      pairwise_split Message.get_id l₁ l₂ m (by rw [← hsplit]; exact hs)
    have h₁' : ∀ a ∈ l₁, Message.get_id a ≠ i := fun a ha => hm ▸ h₁ a ha
    have h₂' : ∀ a ∈ l₂, Message.get_id a ≠ i := fun a ha => hm ▸ h₂ a ha
    refine ⟨delete_message_unique s i l₁ l₂ m hsplit hm hs, ?_⟩
    apply delete_message_absent
    intro a ha
    rcases List.mem_append.1 ha with h | h
    · exact h₁' a h
    · exact h₂' a h
  · intro g₁ c g₂ hsplit hc
    obtain ⟨h₁, h₂⟩ :=
      pairwise_split ChatSession.get_id g₁ g₂ c (by rw [← hsplit]; exact hst)
    have h₁' : ∀ a ∈ g₁, ChatSession.get_id a ≠ i := fun a ha => hc ▸ h₁ a ha
    have h₂' : ∀ a ∈ g₂, ChatSession.get_id a ≠ i := fun a ha => hc ▸ h₂ a ha
    refine ⟨delete_session_unique st i g₁ g₂ c hsplit hc hst, ?_⟩
    apply delete_session_absent
    intro a ha
    rcases List.mem_append.1 ha with h | h
    · exact h₁' a h
    · exact h₂' a h

end ChatOverlay

namespace ChatOverlay

/-- Witness for C6: the contract evaluated on a concrete two-message
session and two-session store, both with distinct ids, at id 1. -/
theorem claim6_delete_unique_id_contract_witness :
    ((sampleSession.messages.map Message.get_id).Pairwise (· ≠ ·))
    ∧ ((sampleStore.sessions.map ChatSession.get_id).Pairwise (· ≠ ·))
    ∧ (((∀ l₁ m l₂, sampleSession.messages = l₁ ++ m :: l₂ →
          m.get_id = 1 →
          sampleSession.delete_message 1
              = ({ sampleSession with messages := l₁ ++ l₂ }, some m)
          ∧ ({ sampleSession with messages := l₁ ++ l₂ } :
                ChatSession).delete_message 1
              = ({ sampleSession with messages := l₁ ++ l₂ }, none))
        ∧ ((∀ m ∈ sampleSession.messages, m.get_id ≠ 1) →
            sampleSession.delete_message 1 = (sampleSession, none)))
      ∧ ((∀ g₁ c g₂, sampleStore.sessions = g₁ ++ c :: g₂ →
          c.get_id = 1 →
          sampleStore.delete_session 1
              = ({ sampleStore with sessions := g₁ ++ g₂ }, some c)
          ∧ ({ sampleStore with sessions := g₁ ++ g₂ } :
                Store).delete_session 1
              = ({ sampleStore with sessions := g₁ ++ g₂ }, none))
        ∧ ((∀ c ∈ sampleStore.sessions, c.get_id ≠ 1) →
            sampleStore.delete_session 1 = (sampleStore, none)))) :=
  ⟨by decide, by decide,
   claim6_delete_unique_id_contract sampleSession sampleStore 1
     (by decide) (by decide)⟩

end ChatOverlay

namespace ChatOverlay

/-! ## The id invariant across all reachable session states (C5) -/

theorem add_message_err_state (s : ChatSession) (contents : String)
    (client : Client) (t₁ t₂ t₃ : Nat) (s' : ChatSession) (e : OpenAIError)
    (h : s.add_message contents client t₁ t₂ t₃ = SubmitOutcome.err s' e) :
    s' = s := by
  simp only [ChatSession.add_message] at h
  cases hres : chat_requests.requeset_chat_model client
      ((s.messages ++
          [Message.new t₁ s.msg_id_counter Role.user contents]).map
        Message.to_chat_resquest_msg) (some s.model) with
  | ok r => rw [hres] at h; simp at h
  | err e' => rw [hres] at h; simp at h; exact h.1.symm
  | panics m => rw [hres] at h; simp at h

theorem add_message_ok_state (s : ChatSession) (contents : String)
    (client : Client) (t₁ t₂ t₃ : Nat) (s' : ChatSession)
    (h : s.add_message contents client t₁ t₂ t₃ = SubmitOutcome.ok s') :
    ∃ r : ChatCompletionResponseMessage,
      s' = (s.add_chat_message
              ({ role := Role.user, content := some contents, name := none,
                 function_call := none } :
                ChatCompletionRequestMessage) t₂).add_chat_message r t₃ := by
  simp only [ChatSession.add_message] at h
  cases hres : chat_requests.requeset_chat_model client
      ((s.messages ++
          [Message.new t₁ s.msg_id_counter Role.user contents]).map
        Message.to_chat_resquest_msg) (some s.model) with
  | ok r => rw [hres] at h; simp at h; exact ⟨r, h.symm⟩
  | err e' => rw [hres] at h; simp at h
  | panics m => rw [hres] at h; simp at h

theorem invariant_new (id : Nat) (title model : String) :
    session_invariant (ChatSession.new id title model) := by
  constructor <;> simp [ChatSession.new, session_invariant]

theorem invariant_add_chat_message {T : Type} [ChatMessageTrait T]
    (s : ChatSession) (msg : T) (now : Nat) (h : session_invariant s) :
    session_invariant (s.add_chat_message msg now) := by
  obtain ⟨h₁, h₂⟩ := h
  constructor
  · simp only [ChatSession.add_chat_message, List.map_append,
      List.map_cons, List.map_nil]
    rw [List.pairwise_append]
    refine ⟨h₁, by simp, ?_⟩
    intro a ha b hb
    simp only [List.mem_singleton] at hb
    subst hb
    obtain ⟨m, hm, rfl⟩ := List.mem_map.1 ha
    exact h₂ m hm
  · intro m hm
    simp only [ChatSession.add_chat_message] at hm
    rcases List.mem_append.1 hm with hmem | hmem
    · exact Nat.lt_succ_of_lt (h₂ m hmem)
    · simp only [List.mem_singleton] at hmem
      subst hmem
      exact Nat.lt_succ_self _

theorem invariant_delete (s : ChatSession) (i : Nat)
    (h : session_invariant s) :
    session_invariant (s.delete_message i).1 := by
  obtain ⟨h₁, h₂⟩ := h
  rw [delete_message_eq]
  constructor
  · exact List.Pairwise.sublist
      (List.Sublist.map _ (List.filter_sublist _)) h₁
  · intro m hm
    exact h₂ m (List.mem_of_mem_filter hm)

theorem reachable_invariant (s : ChatSession) (h : Reachable s) :
    session_invariant s := by
  induction h with
  | init id title model => exact invariant_new id title model
  | add_request s msg now _ ih => exact invariant_add_chat_message s msg now ih
  | add_response s msg now _ ih => exact invariant_add_chat_message s msg now ih
  | submit_ok s s' contents client t₁ t₂ t₃ _ heq ih =>
    obtain ⟨r, rfl⟩ := add_message_ok_state s contents client t₁ t₂ t₃ s' heq
    exact invariant_add_chat_message _ r t₃
      (invariant_add_chat_message _ _ t₂ ih)
  | submit_err s s' contents client t₁ t₂ t₃ e _ heq ih =>
    rw [add_message_err_state s contents client t₁ t₂ t₃ s' e heq]
    exact ih
  | del s i _ ih => exact invariant_delete s i ih
  | rename s new_title _ ih => exact ih

/-- C5: at every session state reachable by any sequence of appends,
submissions, deletions and renames, the stored message ids are strictly
increasing along the list (so the ids assigned by successive appends grow
strictly and never repeat) and pairwise distinct, every stored id sits
below the local counter, and deletion never touches the counter. -/
theorem claim5_ids_strictly_increasing_distinct (s : ChatSession)
    (h : Reachable s) :
    (s.messages.map Message.get_id).Pairwise (· < ·)
    ∧ (s.messages.map Message.get_id).Pairwise (· ≠ ·)
    ∧ (∀ m ∈ s.messages, m.get_id < s.msg_id_counter)
    ∧ (∀ i, ((s.delete_message i).1).msg_id_counter = s.msg_id_counter) := by
  obtain ⟨h₁, h₂⟩ := reachable_invariant s h
  refine ⟨h₁, List.Pairwise.imp (fun hlt => Nat.ne_of_lt hlt) h₁, h₂, ?_⟩
  intro i
  rw [delete_message_eq]

/-- Witness for C5: the invariant evaluated at a concrete reachable state,
a fresh session extended by one direct append. -/
theorem claim5_ids_strictly_increasing_distinct_witness :
    Reachable ((ChatSession.new 0 "t" "m").add_chat_message
      ({ role := Role.user, content := some "hello", name := none,
         function_call := none } : ChatCompletionRequestMessage) 5)
    ∧ ((((ChatSession.new 0 "t" "m").add_chat_message
          ({ role := Role.user, content := some "hello", name := none,
             function_call := none } : ChatCompletionRequestMessage)
          5).messages.map Message.get_id).Pairwise (· < ·)
      ∧ ((((ChatSession.new 0 "t" "m").add_chat_message
          ({ role := Role.user, content := some "hello", name := none,
             function_call := none } : ChatCompletionRequestMessage)
          5).messages.map Message.get_id).Pairwise (· ≠ ·))
      ∧ (∀ m ∈ ((ChatSession.new 0 "t" "m").add_chat_message
          ({ role := Role.user, content := some "hello", name := none,
             function_call := none } : ChatCompletionRequestMessage)
          5).messages,
            m.get_id < ((ChatSession.new 0 "t" "m").add_chat_message
              ({ role := Role.user, content := some "hello", name := none,
                 function_call := none } : ChatCompletionRequestMessage)
              5).msg_id_counter)
      ∧ (∀ i, ((((ChatSession.new 0 "t" "m").add_chat_message
          ({ role := Role.user, content := some "hello", name := none,
             function_call := none } : ChatCompletionRequestMessage)
          5).delete_message i).1).msg_id_counter
            = ((ChatSession.new 0 "t" "m").add_chat_message
              ({ role := Role.user, content := some "hello", name := none,
                 function_call := none } : ChatCompletionRequestMessage)
              5).msg_id_counter)) :=
  ⟨Reachable.add_request _ _ 5 (Reachable.init 0 "t" "m"),
   claim5_ids_strictly_increasing_distinct _
     (Reachable.add_request _ _ 5 (Reachable.init 0 "t" "m"))⟩

end ChatOverlay

namespace ChatOverlay

/-! ## Submission paths (C1, C2, C3, C4, C7) and the wire round trip (C8) -/

/-- C1 counterexample: on a client success carrying an empty choices list,
`requeset_chat_model` does not return an error result — it panics with the
message of the `expect` call. -/
theorem claim1_counterexample_empty_choices_not_error :
    (chat_requests.requeset_chat_model emptyChoicesClient []
        (some "gpt-3.5-turbo")).isErr = false
    ∧ chat_requests.requeset_chat_model emptyChoicesClient []
        (some "gpt-3.5-turbo")
      = chat_requests.RequestOutcome.panics
          "Response had an empty choice field" :=
  ⟨rfl, rfl⟩

/-- C1 (as amended): whenever the client call succeeds but its choices
list is empty, `requeset_chat_model` panics with the `expect` message
instead of returning an error result; no default content is substituted. -/
theorem claim1_empty_choices_panics (client : Client)
    (messages : List ChatCompletionRequestMessage) (model : Option String)
    (response : CreateChatCompletionResponse)
    (hok : client (chat_requests.build_request messages model)
        = Except.ok response)
    (hempty : response.choices = []) :
    chat_requests.requeset_chat_model client messages model
      = chat_requests.RequestOutcome.panics
          "Response had an empty choice field" := by
  simp only [chat_requests.requeset_chat_model]
  rw [hok]
  simp [hempty]

/-- Witness for the amended C1 at the concrete empty-choices client. -/
theorem claim1_empty_choices_panics_witness :
    (emptyChoicesClient (chat_requests.build_request [] none)
        = Except.ok { choices := [] })
    ∧ (({ choices := [] } : CreateChatCompletionResponse).choices = [])
    ∧ chat_requests.requeset_chat_model emptyChoicesClient [] none
        = chat_requests.RequestOutcome.panics
            "Response had an empty choice field" :=
  ⟨rfl, rfl,
   claim1_empty_choices_panics emptyChoicesClient [] none
     { choices := [] } rfl rfl⟩

/-- C2: when the completion call inside `add_message` returns an error,
`add_message` returns that same error and the session exactly as it was
before the call — message sequence and local id counter included. -/
theorem claim2_error_leaves_session_unchanged (s : ChatSession)
    (contents : String) (client : Client) (t₁ t₂ t₃ : Nat) (e : OpenAIError)
    (h : chat_requests.requeset_chat_model client
          ((s.messages ++
              [Message.new t₁ s.msg_id_counter Role.user contents]).map
            Message.to_chat_resquest_msg)
          (some s.model) = chat_requests.RequestOutcome.err e) :
    s.add_message contents client t₁ t₂ t₃ = SubmitOutcome.err s e := by
  simp only [ChatSession.add_message]
  rw [h]

/-- Witness for C2 at the concrete erroring client. -/
theorem claim2_error_leaves_session_unchanged_witness :
    (chat_requests.requeset_chat_model errClient
        ((sampleSession.messages ++
            [Message.new 3 sampleSession.msg_id_counter Role.user "hi"]).map
          Message.to_chat_resquest_msg)
        (some sampleSession.model)
      = chat_requests.RequestOutcome.err { message := "boom" })
    ∧ sampleSession.add_message "hi" errClient 3 4 5
        = SubmitOutcome.err sampleSession { message := "boom" } :=
  ⟨rfl,
   claim2_error_leaves_session_unchanged sampleSession "hi" errClient 3 4 5
     { message := "boom" } rfl⟩

/-- C3: when the initial submission inside `add_session` fails, the store
returns that same error and is exactly as before: same sessions list, same
global counter, same client — the new session never appears. -/
theorem claim3_failed_create_leaves_store_unchanged (st : Store)
    (msg : ChatCompletionRequestMessage) (title model : String)
    (t₁ t₂ t₃ : Nat) (s' : ChatSession) (e : OpenAIError)
    (h : (ChatSession.new st.session_id_counter title model).add_message
          (ChatMessageTrait.get_content msg) st.client t₁ t₂ t₃
        = SubmitOutcome.err s' e) :
    st.add_session msg title model t₁ t₂ t₃ = StoreOutcome.err st e := by
  simp only [Store.add_session]
  rw [h]

/-- Witness for C3 at the concrete erroring client. -/
theorem claim3_failed_create_leaves_store_unchanged_witness :
    ((ChatSession.new sampleStore.session_id_counter "T" "m").add_message
        (ChatMessageTrait.get_content
          ({ role := Role.user, content := some "hello", name := none,
             function_call := none } : ChatCompletionRequestMessage))
        sampleStore.client 0 1 2
      = SubmitOutcome.err (ChatSession.new 2 "T" "m") { message := "boom" })
    ∧ sampleStore.add_session
        ({ role := Role.user, content := some "hello", name := none,
           function_call := none } : ChatCompletionRequestMessage)
        "T" "m" 0 1 2
      = StoreOutcome.err sampleStore { message := "boom" } :=
  ⟨rfl,
   claim3_failed_create_leaves_store_unchanged sampleStore
     ({ role := Role.user, content := some "hello", name := none,
        function_call := none } : ChatCompletionRequestMessage)
     "T" "m" 0 1 2 (ChatSession.new 2 "T" "m") { message := "boom" } rfl⟩

/-- C4: when the completion call inside `add_message` succeeds with
response r, exactly two records are appended at the end, in order: the
user turn carrying the submitted content, then a record carrying the role
and content of r; they receive the two consecutive fresh ids, the counter
advances by two, and every other field of the session is unchanged. -/
theorem claim4_success_appends_two_records (s : ChatSession)
    (contents : String) (client : Client) (t₁ t₂ t₃ : Nat)
    (r : ChatCompletionResponseMessage)
    (h : chat_requests.requeset_chat_model client
          ((s.messages ++
              [Message.new t₁ s.msg_id_counter Role.user contents]).map
            Message.to_chat_resquest_msg)
          (some s.model) = chat_requests.RequestOutcome.ok r) :
    s.add_message contents client t₁ t₂ t₃
      = SubmitOutcome.ok
          { s with
            messages := s.messages ++
              [{ id := s.msg_id_counter, content := contents,
                 created_at := t₂, role := Role.user },
               { id := s.msg_id_counter + 1,
                 content := ChatMessageTrait.get_content r,
                 created_at := t₃,
                 role := ChatMessageTrait.get_role r }],
            msg_id_counter := s.msg_id_counter + 2 }
      ∧ s.msg_id_counter ≠ s.msg_id_counter + 1 := by
  refine ⟨?_, Nat.ne_of_lt (Nat.lt_succ_self _)⟩
  simp only [ChatSession.add_message]
  rw [h]
  simp [ChatSession.add_chat_message, Message.new]
  exact ⟨rfl, rfl⟩

/-- Witness for C4 at the concrete one-choice client. -/
theorem claim4_success_appends_two_records_witness :
    (chat_requests.requeset_chat_model okClient
        ((sampleSession.messages ++
            [Message.new 3 sampleSession.msg_id_counter Role.user "hi"]).map
          Message.to_chat_resquest_msg)
        (some sampleSession.model)
      = chat_requests.RequestOutcome.ok
          { role := Role.assistant, content := some "hi there",
            function_call := none })
    ∧ (sampleSession.add_message "hi" okClient 3 4 5
        = SubmitOutcome.ok
            { sampleSession with
              messages := sampleSession.messages ++
                [{ id := sampleSession.msg_id_counter, content := "hi",
                   created_at := 4, role := Role.user },
                 { id := sampleSession.msg_id_counter + 1,
                   content := ChatMessageTrait.get_content
                     ({ role := Role.assistant, content := some "hi there",
                        function_call := none } :
                       ChatCompletionResponseMessage),
                   created_at := 5,
                   role := ChatMessageTrait.get_role
                     ({ role := Role.assistant, content := some "hi there",
                        function_call := none } :
                       ChatCompletionResponseMessage) }],
              msg_id_counter := sampleSession.msg_id_counter + 2 }
        ∧ sampleSession.msg_id_counter ≠ sampleSession.msg_id_counter + 1) :=
  ⟨rfl,
   claim4_success_appends_two_records sampleSession "hi" okClient 3 4 5
     { role := Role.assistant, content := some "hi there",
       function_call := none } rfl⟩

end ChatOverlay

namespace ChatOverlay

/-- C7: the request `add_message` hands to the client carries exactly the
projection of every stored message into wire form, in stored order,
followed by one extra user entry with the new content (which is not yet
stored at call time), and its model field is the model bound to this
session; the third conjunct shows `submit_request` is precisely what
`add_message` passes to the client. -/
theorem claim7_outgoing_request_shape (s : ChatSession) (contents : String)
    (client : Client) (t₁ t₂ t₃ : Nat) :
    (s.submit_request contents t₁).messages
        = s.messages.map Message.to_chat_resquest_msg
          ++ [{ role := Role.user, content := some contents, name := none,
                function_call := none }]
    ∧ (s.submit_request contents t₁).model = s.model
    ∧ s.add_message contents client t₁ t₂ t₃
        = (match client (s.submit_request contents t₁) with
           | Except.error e => SubmitOutcome.err s e
           | Except.ok response =>
             match response.choices.head? with
             | none =>
               SubmitOutcome.panics "Response had an empty choice field"
             | some choice =>
               SubmitOutcome.ok ((s.add_chat_message
                   ({ role := Role.user, content := some contents,
                      name := none, function_call := none } :
                     ChatCompletionRequestMessage) t₂).add_chat_message
                 choice.message t₃)) := by
  refine ⟨?_, rfl, ?_⟩
  · simp [ChatSession.submit_request, chat_requests.build_request,
      Message.new, Message.to_chat_resquest_msg]
  · simp only [ChatSession.add_message, chat_requests.requeset_chat_model,
      ChatSession.submit_request]
    cases client (chat_requests.build_request
        ((s.messages ++
            [Message.new t₁ s.msg_id_counter Role.user contents]).map
          Message.to_chat_resquest_msg)
        (some s.model)) with
    | error e => rfl
    | ok response =>
      dsimp only
      cases response.choices.head? with
      | none => rfl
      | some choice => rfl

/-- C8: building an internal record from a wire request message keeps the
role; a present content is kept exactly, an absent content becomes the
empty string; converting back out always yields `some` of that text
(absent content resurfaces as `some ""`, never as `none`), with name and
function_call always emitted as `none`. -/
theorem claim8_wire_roundtrip (m : ChatCompletionRequestMessage)
    (i now : Nat) :
    (Message.new now i (ChatMessageTrait.get_role m)
        (ChatMessageTrait.get_content m)).content = m.content.getD ""
    ∧ (Message.new now i (ChatMessageTrait.get_role m)
          (ChatMessageTrait.get_content m)).to_chat_resquest_msg
        = { role := m.role, content := some (m.content.getD ""),
            name := none, function_call := none } := by
  obtain ⟨r, c, n, f⟩ := m
  cases c <;> exact ⟨rfl, rfl⟩

end ChatOverlay
